import Mathlib

/-!
Verification of the `annt` repository's plotting module (`annt/plot.py`) and
example driver (`annt/examples/multilayer_perceptron_network.py`) against its
natural-language specification.

The two Python files are shallowly embedded below.  The code is Python 2.7
(`colors.next()`, `xrange`, `print` statements), which matters in one place:
Python 2 list comprehensions leak their loop variable into the enclosing
scope, so in `plot_epoch` the variable `x` is already bound (to the last
element of `y_series`) when the drawing loop first reads `x.shape[0]`.

External collaborators (`matplotlib`, `numpy` array arithmetic,
`annt.net.MultilayerPerception.run`, `annt.util.mnist_data` / `one_hot`,
`os.makedirs`) are modelled symbolically: drawing calls record their
arguments and fail exactly when the charting library would reject mismatched
array lengths; fallible collaborators are passed in as `Except`-valued
parameters, and the embedding threads their failures exactly where the
Python code has no handler.
-/

/-! ## `annt/plot.py`: `plot_epoch` (lines 29-98) -/

/-- The marker cycle of `plot_epoch` (plot.py lines 72-75), in source order. -/
def markersL : List String :=
  [".", ",", "o", "v", "^", "<", ">", "1", "2",
   "3", "4", "8", "s", "p", "*", "p", "h", "H", "+", "D", "d", "|", "_",
   "TICKLEFT", "TICKRIGHT", "TICKUP", "TICKDOWN", "CARETLEFT",
   "CARETRIGHT", "CARETUP", "CARETDOWN"]

/-- `np.arange(1, n + 1)`: the list `[1, 2, ..., n]`. -/
def npArange1 (n : Nat) : List Nat :=
  (List.range n).map (fun i => i + 1)

/-- One drawing call issued by `plot_epoch`'s data loop: the x array, the y
series, the error series (for `ax.errorbar`; `none` for `ax.scatter`), and
the positions taken from the cycling color and marker iterators.  The y
values are polymorphic: the loop never inspects them. -/
structure Drawn (A : Type) where
  xs : List Nat
  ys : List A
  yerr : Option (List A)
  colorIdx : Nat
  markerIdx : Nat
deriving DecidableEq

/-- The errorbar branch of `plot_epoch`'s data loop (plot.py lines 78-82):
`for y, err in zip(y_series, y_errs): x = np.arange(1, x.shape[0] + 1);
ax.errorbar(x, y, yerr=err, color=colors.next(), marker=markers.next())`.
`xlen` is the length of the current value of `x` (on entry, the length of
the last element of `y_series`, leaked by the comprehension on line 68);
`idx` counts draws for the cycling iterators; `nseries = len(y_series)` is
the period of the color cycle.  `ax.errorbar` raises when the x, y and yerr
arrays do not share one length. -/
def drawErrorbars {A : Type} (nseries : Nat) :
    Nat → Nat → List (List A × List A) → Except String (List (Drawn A))
  | _, _, [] => Except.ok []
  | idx, xlen, (y, err) :: rest =>
    let x := npArange1 xlen
    if x.length = y.length ∧ err.length = y.length then
      match drawErrorbars nseries (idx + 1) x.length rest with
      | Except.error e => Except.error e
      | Except.ok ds =>
          Except.ok (⟨x, y, some err, idx % nseries, idx % markersL.length⟩ :: ds)
    else
      Except.error "ValueError: errorbar arrays must have the same length"

/-- The scatter branch of `plot_epoch`'s data loop (plot.py lines 83-86):
`for y in y_series: x = np.arange(1, x.shape[0] + 1); ax.scatter(x, y,
color=colors.next(), marker=markers.next())`.  `ax.scatter` raises when x
and y differ in size. -/
def drawScatters {A : Type} (nseries : Nat) :
    Nat → Nat → List (List A) → Except String (List (Drawn A))
  | _, _, [] => Except.ok []
  | idx, xlen, y :: rest =>
    let x := npArange1 xlen
    if x.length = y.length then
      match drawScatters nseries (idx + 1) x.length rest with
      | Except.error e => Except.error e
      | Except.ok ds =>
          Except.ok (⟨x, y, none, idx % nseries, idx % markersL.length⟩ :: ds)
    else
      Except.error "ValueError: x and y must be the same size"

/-- The data-adding part of `plot_epoch` (plot.py lines 62-86).  Line 68
evaluates `max([x.shape[0] for x in y_series])`, which raises on an empty
`y_series` and otherwise (Python 2) leaves `x` bound to the last element of
`y_series`; the drawing loop then seeds its x array from that leaked `x`. -/
def plot_epoch_draw {A : Type} (y_series : List (List A))
    (y_errs : Option (List (List A))) : Except String (List (Drawn A)) :=
  match y_series.getLast? with
  | none => Except.error "ValueError: max() arg is an empty sequence"
  | some leakedX =>
    match y_errs with
    | some errs => drawErrorbars y_series.length 0 leakedX.length (y_series.zip errs)
    | none => drawScatters y_series.length 0 leakedX.length y_series

/-! ## `annt/plot.py`: the save step shared by the three plotters -/

/-- Python's `s.split(sep)` for a one-character separator, on the character
list of the string: `"a.b.c"` splits to `["a", "b", "c"]`, the empty string
to `[""]`, and a leading/trailing/doubled separator yields empty pieces. -/
def splitChar (sep : Char) : List Char → List (List Char)
  | [] => [[]]
  | c :: rest =>
    match splitChar sep rest with
    | [] => [[]]
    | h :: t => if c = sep then [] :: h :: t else (c :: h) :: t

/-- `out_path.split('.')[-1]`: the format argument each plotter passes to
`plt.savefig` (plot.py lines 94, 148 and 216). -/
def pyExtOf (p : String) : String :=
  String.mk ((splitChar (Char.ofNat 46) p.toList).getLastD [])

/-- The save step of `plot_epoch` (plot.py lines 93-94): when `out_path` is
not `None`, `plt.savefig(out_path, format=out_path.split('.')[-1], dpi=100)`
writes the figure at `out_path`; otherwise nothing is written.  The result
records the written path and the format passed to `savefig`. -/
def plot_epoch_saveStep (out_path : Option String) : Option (String × String) :=
  match out_path with
  | none => none
  | some p => some (p, pyExtOf p)

/-- The save step of `plot_weights` (plot.py lines 147-148), identical in
form to that of `plot_epoch`. -/
def plot_weights_saveStep (out_path : Option String) : Option (String × String) :=
  match out_path with
  | none => none
  | some p => some (p, pyExtOf p)

/-- The save step of `plot_surface` (plot.py lines 215-216), identical in
form to that of `plot_epoch`. -/
def plot_surface_saveStep (out_path : Option String) : Option (String × String) :=
  match out_path with
  | none => none
  | some p => some (p, pyExtOf p)

/-- The specification's reading of the format rule: the substring of the
path after its last `'.'` (the whole path when it contains no `'.'`),
computed directly as the longest dot-free suffix. -/
def extAfterLastDot (p : String) : String :=
  String.mk ((p.toList.reverse.takeWhile (fun c => c ≠ Char.ofNat 46)).reverse)

/-! ## `annt/plot.py`: `make_grid` (lines 154-171) -/

/-- Stable insertion of `a` into a list sorted by the total preorder `le`:
on ties `a` stays in front, as an element that occurred earlier. -/
def pyInsert {A : Type} (le : A → A → Bool) (a : A) : List A → List A
  | [] => [a]
  | b :: l => if le a b then a :: b :: l else b :: pyInsert le a l

/-- Python's `sorted`, modelled as a stable insertion sort (Python's sort is
stable; for `make_grid`'s inputs ties in the key never reorder anything
because the claim's grids carry each `(x, y)` pair once). -/
def pySorted {A : Type} (le : A → A → Bool) : List A → List A
  | [] => []
  | a :: t => pyInsert le a (pySorted le t)

/-- The sort key of `make_grid` line 165, `key=lambda x: (x[0], x[1])`:
lexicographic on the `(x, y)` components of a data triple. -/
def gridLe (a b : Int × Int × Int) : Bool :=
  decide (a.1 < b.1 ∨ (a.1 = b.1 ∧ a.2.1 ≤ b.2.1))

/-- `np.array(sorted(list(set(v))))`: the sorted list of distinct values,
used for `xi` and `yi` (make_grid lines 166-167). -/
def sortedDistinct (v : List Int) : List Int :=
  pySorted (fun a b => decide (a ≤ b)) v.dedup

/-- `z.reshape((rows, cols))` for a flat list whose length is `rows * cols`:
split into consecutive rows of `cols` entries (make_grid line 169; numpy
rejects a length mismatch, which the complete-grid inputs of the claim rule
out). -/
def npReshape (cols : Nat) : Nat → List Int → List (List Int)
  | 0, _ => []
  | rows + 1, l => l.take cols :: npReshape cols rows (l.drop cols)

/-- `make_grid` (plot.py lines 154-171): sort the `(x, y, z)` triples by
`(x, y)`, unpack the sorted columns into `x`, `y`, `z`, build
`xi`/`yi` as the sorted distinct values, `xim, yim = np.meshgrid(xi, yi)`
(shape `(len(yi), len(xi))`, `xim[r][c] = xi[c]`, `yim[r][c] = yi[r]`), and
reshape the sorted `z` column to that shape. -/
def make_grid (data : List (Int × Int × Int)) :
    List (List Int) × List (List Int) × List (List Int) :=
  let srt := pySorted gridLe data
  let x := srt.map (fun t => t.1)
  let y := srt.map (fun t => t.2.1)
  let z := srt.map (fun t => t.2.2)
  let xi := sortedDistinct x
  let yi := sortedDistinct y
  let xim := yi.map (fun _ => xi)
  let yim := yi.map (fun v => xi.map (fun _ => v))
  let zi := npReshape xi.length yi.length z
  (xim, yim, zi)

/-- The z value a complete grid associates to a point: the third component
of the (unique) input triple whose first two components are `(a, b)`. -/
def gridZAt (data : List (Int × Int × Int)) (a b : Int) : Option Int :=
  (data.find? (fun t => t.1 = a ∧ t.2.1 = b)).map (fun t => t.2.2)

/-! ## `annt/examples/multilayer_perceptron_network.py`

The driver's data arrays are never inspected by the code under `src/`; they
are produced by the external collaborators `annt.util.mnist_data` and
`annt.util.one_hot` and consumed by the external network.  They are
therefore embedded symbolically, as terms recording which operations were
applied to which loaded array. -/

/-- A symbolic data array of the example driver: one of the four arrays
returned by `mnist_data`, a pixel array divided by `255.`, or a label array
one-hot encoded with a class count. -/
inductive Arr where
  | trainImages : Arr
  | trainLabels : Arr
  | testImages : Arr
  | testLabels : Arr
  | div255 (a : Arr) : Arr
  | oneHot (a : Arr) (nclasses : Nat) : Arr
deriving DecidableEq

/-- The external `annt.util.mnist_data`, symbolically: it returns
`((train_data, train_labels), (test_data, test_labels))`. -/
def mnist_data : (Arr × Arr) × (Arr × Arr) :=
  ((Arr.trainImages, Arr.trainLabels), (Arr.testImages, Arr.testLabels))

/-- The external `annt.util.one_hot(labels, nclasses)`, symbolically. -/
def one_hot (a : Arr) (nclasses : Nat) : Arr :=
  Arr.oneHot a nclasses

/-- One invocation of `main` (lines 35-37): its four data arguments and the
keyword hyperparameters of its signature. -/
structure MainCall where
  train_data : Arr
  train_labels : Arr
  test_data : Arr
  test_labels : Arr
  nepochs : Nat
  plot : Bool
  verbose : Bool
  hidden_layers : List Int
  bias : ℚ
  learning_rate : ℚ
  min_weight : ℚ
  max_weight : ℚ
  hidden_activation_type : String
deriving DecidableEq

/-- A call to `main` that passes the four data arrays and `nepochs` and
leaves every other keyword at the defaults of `main`'s signature
(lines 35-37: `nepochs=1, plot=True, verbose=True, hidden_layers=[100],
bias=1, learning_rate=0.001, min_weight=-1, max_weight=1,
hidden_activation_type='sigmoid'`). -/
def main_defaultCall (td tl sd sl : Arr) (nepochs : Nat) : MainCall :=
  ⟨td, tl, sd, sl, nepochs, true, true, [100], 1, 1 / 1000, -1, 1, "sigmoid"⟩

/-- `basic_sim` (lines 104-118): load the data with `mnist_data`, then call
`main(train_data/255., one_hot(train_labels, 10), test_data/255.,
one_hot(test_labels, 10), nepochs=nepochs)`.  The result is the `MainCall`
it issues. -/
def basic_sim (nepochs : Nat) : MainCall :=
  let md := mnist_data
  main_defaultCall (Arr.div255 md.1.1) (one_hot md.1.2 10)
    (Arr.div255 md.2.1) (one_hot md.2.2 10) nepochs

/-- The arguments of one `plot_epoch` call, in the order of `plot_epoch`'s
signature (plot.py lines 29-31). -/
structure EpochPlotCall where
  -- the final field models `plot_epoch`'s `show` parameter, whose name is a
  -- Lean keyword
  y_series : List (List ℚ)
  series_names : Option (List String)
  y_errs : Option (List (List ℚ))
  y_label : Option String
  title : Option String
  semilog : Bool
  legend_location : String
  out_path : Option String
  showfig : Bool
deriving DecidableEq

/-- The constructor arguments `main` hands to
`annt.net.MultilayerPerception` (lines 83-90). -/
structure NetCtorArgs where
  shape : List Int
  bias : ℚ
  learning_rate : ℚ
  min_weight : ℚ
  max_weight : ℚ
  hidden_activation_type : String
deriving DecidableEq

/-- The arguments `main` hands to `net.run` beyond the four data arrays
(lines 93-94). -/
structure RunCallArgs where
  nepochs : Nat
  verbose : Bool
deriving DecidableEq

/-- What one call of `main` does: the network constructed, the `run` call
issued, the `plot_epoch` call issued (when `plot` is true), and the value
returned. -/
structure MainTrace where
  ctor : NetCtorArgs
  run : RunCallArgs
  plotted : Option EpochPlotCall
  ret : List ℚ × List ℚ
deriving DecidableEq

/-- `main` (lines 81-102), given the column count `ncols` of `train_data`
(that is, `train_data.shape[1]`) and the pair `runResult =
(train_results, test_results)` returned by the external `net.run`:
it builds `shape = [train_data.shape[1]] + list(hidden_layers) + [10]`,
constructs the network with the given keywords, calls `run` with `nepochs`
and `verbose`, plots `train_results * 100` and `test_results * 100` as
`('Train', 'Test')` when `plot` is true, and returns
`(train_results * 100, test_results * 100)`. -/
def main_trace (ncols nepochs : Nat) (plot verbose : Bool)
    (hidden_layers : List Int) (bias learning_rate min_weight max_weight : ℚ)
    (hidden_activation_type : String) (runResult : List ℚ × List ℚ) : MainTrace :=
  let shape : List Int := (ncols : Int) :: hidden_layers ++ [10]
  ⟨⟨shape, bias, learning_rate, min_weight, max_weight, hidden_activation_type⟩,
   ⟨nepochs, verbose⟩,
   if plot then
     some ⟨[runResult.1.map (fun q => q * 100), runResult.2.map (fun q => q * 100)],
           some ["Train", "Test"], none, some "Accuracy [%]",
           some "MLP - Example", false, "upper left", none, true⟩
   else none,
   (runResult.1.map (fun q => q * 100), runResult.2.map (fun q => q * 100))⟩

/-- `main` with its fallible collaborators made explicit: `main` wraps no
statement in a handler, so a failure of `net.run` propagates, and when
`plot` is true a failure inside `plot_epoch`'s drawing loop propagates
too. -/
def main_except (ncols nepochs : Nat) (plot verbose : Bool)
    (hidden_layers : List Int) (bias learning_rate min_weight max_weight : ℚ)
    (hidden_activation_type : String)
    (runResult : Except String (List ℚ × List ℚ)) : Except String MainTrace :=
  match runResult with
  | Except.error e => Except.error e
  | Except.ok r =>
    let t := main_trace ncols nepochs plot verbose hidden_layers bias
      learning_rate min_weight max_weight hidden_activation_type r
    if plot then
      match plot_epoch_draw
          [r.1.map (fun q => q * 100), r.2.map (fun q => q * 100)] none with
      | Except.error e => Except.error e
      | Except.ok _ => Except.ok t
    else Except.ok t

/-! ## `bulk` (lines 120-160) -/

/-- `np.zeros((r, c))` as a matrix of rationals. -/
def npZerosQ (r c : Nat) : List (List ℚ) :=
  List.replicate r (List.replicate c 0)

/-- The fill loop over a preallocated `np.zeros((n, c))` matrix:
`for i in xrange(n): m[i] = f(i)` (numpy's requirement that the assigned
row have length `c` is a hypothesis of the theorems, not re-checked
here). -/
def fillRows (f : Nat → List ℚ) (n c : Nat) : List (List ℚ) :=
  (List.range n).foldl (fun m i => m.set i (f i)) (npZerosQ n c)

/-- `np.mean(m, 0)` for an `m.length × ncols` matrix: the column means. -/
def npMeanAxis0 (m : List (List ℚ)) (ncols : Nat) : List ℚ :=
  (List.range ncols).map (fun e =>
    (m.map (fun row => row.getD e 0)).sum / m.length)

/-- The column-wise mean squared deviation of an `m.length × ncols` matrix:
the square of `np.std(m, 0)` (numpy's default population standard
deviation, `ddof=0`). -/
def npVarAxis0 (m : List (List ℚ)) (ncols : Nat) : List ℚ :=
  (List.range ncols).map (fun e =>
    (m.map (fun row =>
      (row.getD e 0 - (m.map (fun r2 => r2.getD e 0)).sum / m.length) ^ 2)).sum
      / m.length)

/-- `np.std(m, 0)`: the column-wise population standard deviation, the
square root of the column-wise mean squared deviation. -/
noncomputable def npStdAxis0 (m : List (List ℚ)) (ncols : Nat) : List ℝ :=
  (npVarAxis0 m ncols).map (fun q : ℚ => Real.sqrt q)

/-- The flags `bulk` fixes on every `main` call (lines 143-144):
`main(verbose=False, plot=False, nepochs=nepochs, **kargs)`. -/
structure BulkMainFlags where
  plot : Bool
  verbose : Bool
  nepochs : Nat
deriving DecidableEq

/-- The `main` invocations `bulk` performs: `niters` calls, each with
`plot=False`, `verbose=False` and the given `nepochs`. -/
def bulk_mainCalls (niters nepochs : Nat) : List BulkMainFlags :=
  (List.range niters).map (fun _ => ⟨false, false, nepochs⟩)

/-- `bulk` (lines 137-160), with run `i` of the external `main` returning
the pair `runs i = (train_results, test_results)`: fill the two
preallocated `(niters, nepochs)` matrices row by row, then return
`((train_mean, train_std), (test_mean, test_std))`, the column-wise means
and standard deviations. -/
noncomputable def bulk_result (runs : Nat → List ℚ × List ℚ)
    (niters nepochs : Nat) : (List ℚ × List ℝ) × (List ℚ × List ℝ) :=
  let train_results := fillRows (fun i => (runs i).1) niters nepochs
  let test_results := fillRows (fun i => (runs i).2) niters nepochs
  ((npMeanAxis0 train_results nepochs, npStdAxis0 train_results nepochs),
   (npMeanAxis0 test_results nepochs, npStdAxis0 test_results nepochs))

/-- Run the external `main` once per listed iteration index, stopping at
the first failure: `bulk`'s loop body has no handler around
`main(...)`. -/
def collectRuns (runs : Nat → Except String (List ℚ × List ℚ)) :
    List Nat → Except String (List (List ℚ × List ℚ))
  | [] => Except.ok []
  | i :: rest =>
    match runs i with
    | Except.error e => Except.error e
    | Except.ok v =>
      match collectRuns runs rest with
      | Except.error e => Except.error e
      | Except.ok vs => Except.ok (v :: vs)

/-- `bulk` with its fallible collaborator made explicit: a failure of any
`main` run propagates out of `bulk` unhandled. -/
noncomputable def bulk_except (runs : Nat → Except String (List ℚ × List ℚ))
    (niters nepochs : Nat) :
    Except String ((List ℚ × List ℝ) × (List ℚ × List ℝ)) :=
  match collectRuns runs (List.range niters) with
  | Except.error e => Except.error e
  | Except.ok vs =>
    Except.ok (bulk_result (fun i => vs.getD i ([], [])) niters nepochs)

/-! ## `vary_params` (lines 176-294) -/

/-- `np.linspace(a, b, n)`: `n` evenly spaced values from `a` to `b`
inclusive.  The three uses in `vary_params` have integer step sizes
(`25`, `10` and `5`), so the floating-point computation is exact and the
rational model coincides with it. -/
def linspace (a b : ℚ) (n : Nat) : List ℚ :=
  (List.range n).map (fun i => a + i * ((b - a) / ((n : ℚ) - 1)))

/-- Python's `int(q)`, truncation toward zero; on the nonnegative grid
values produced by `vary_params`'s `linspace` calls this is the floor. -/
def pyInt (q : ℚ) : Int := ⌊q⌋

/-- `shapes = [[int(x)] for x in np.linspace(25, 250, 10)]` (line 205). -/
def vp_shapes1 : List (List Int) :=
  (linspace 25 250 10).map (fun q => [pyInt q])

/-- `shapes = [[250, int(x)] for x in np.linspace(10, 100, 10)]`
(line 237). -/
def vp_shapes2 : List (List Int) :=
  (linspace 10 100 10).map (fun q => [250, pyInt q])

/-- `shapes = [[250, 100, int(x)] for x in np.linspace(5, 50, 10)]`
(line 269). -/
def vp_shapes3 : List (List Int) :=
  (linspace 5 50 10).map (fun q => [250, 100, pyInt q])

/-- `str(shape)` for a Python list of ints, as used by
`'Shape = {0}'.format(x)` (lines 210, 242, 274). -/
def pyListStr (l : List Int) : String :=
  "[" ++ String.intercalate ", " (l.map toString) ++ "]"

/-- The per-section legend names (lines 210, 242, 274). -/
def seriesNamesOf (shapes : List (List Int)) : List String :=
  shapes.map (fun s => "Shape = " ++ pyListStr s)

/-- `os.path.join(d, f)` for the posix separator, for a relative final
component. -/
def pyJoin (d f : String) : String :=
  if d = "" then f
  else if d.endsWith "/" then d ++ f
  else d ++ "/" ++ f

/-- A line printed by `vary_params`: a section banner or an
`'Executing iteration {0} of {1}'` progress line. -/
inductive PrintEvent where
  | msg (s : String) : PrintEvent
  | executing (i n : Nat) : PrintEvent
deriving DecidableEq

/-- The console output of one `vary_params` section: the banner, then one
progress line per shape. -/
def sectionPrints (banner : String) (n : Nat) : List PrintEvent :=
  PrintEvent.msg banner :: (List.range n).map (fun i => PrintEvent.executing (i + 1) n)

/-- The `try: os.makedirs(out_dir) / except OSError: pass` block
(lines 195-198): whatever `os.makedirs` did, the handler body is `pass`,
so nothing is reported.  The result is the list of failure reports the
block emits. -/
def makedirs_step (r : Except String Unit) : List PrintEvent :=
  match r with
  | Except.ok _ => []
  | Except.error _ => []

/-- The four per-section result matrices of `vary_params` (for example
lines 206-209): row `i` holds the arrays bulk returned for shape `i`. -/
structure SectionData where
  train_results : List (List ℚ)
  train_stds : List (List ℚ)
  test_results : List (List ℚ)
  test_stds : List (List ℚ)
deriving DecidableEq

/-- Call the external `bulk` once per shape, stopping at the first
failure: `vary_params`'s loops have no handler around `bulk(...)`. -/
def collectBulks
    (bulkRes : List Int → Except String ((List ℚ × List ℚ) × (List ℚ × List ℚ))) :
    List (List Int) → Except String (List ((List ℚ × List ℚ) × (List ℚ × List ℚ)))
  | [] => Except.ok []
  | s :: rest =>
    match bulkRes s with
    | Except.error e => Except.error e
    | Except.ok v =>
      match collectBulks bulkRes rest with
      | Except.error e => Except.error e
      | Except.ok vs => Except.ok (v :: vs)

/-- Unpack the collected bulk results of one section into the four
preallocated `(len(shapes), nepochs)` matrices
(`(train_results[i], train_stds[i]), (test_results[i], test_stds[i]) =
bulk(...)`, e.g. lines 211-216). -/
def sectionData (vs : List ((List ℚ × List ℚ) × (List ℚ × List ℚ)))
    (nepochs : Nat) : SectionData :=
  ⟨fillRows (fun i => (vs.getD i (([], []), ([], []))).1.1) vs.length nepochs,
   fillRows (fun i => (vs.getD i (([], []), ([], []))).1.2) vs.length nepochs,
   fillRows (fun i => (vs.getD i (([], []), ([], []))).2.1) vs.length nepochs,
   fillRows (fun i => (vs.getD i (([], []), ([], []))).2.2) vs.length nepochs⟩

/-- The two `plot_epoch` calls of one `vary_params` section (for example
lines 219-230).  Note the second call, the testing plot, passes
`y_errs=train_stds` in the source (lines 229, 261 and 293), not the
section's `test_stds`. -/
def sectionPlots (out_dir : String) (show_plot : Bool)
    (shapes : List (List Int)) (sd : SectionData)
    (titleTrain titleTest fnameTrain fnameTest : String) : List EpochPlotCall :=
  [⟨sd.train_results, some (seriesNamesOf shapes), some sd.train_stds,
    some "Accuracy [%]", some titleTrain, false, "upper left",
    some (pyJoin out_dir fnameTrain), show_plot⟩,
   ⟨sd.test_results, some (seriesNamesOf shapes), some sd.train_stds,
    some "Accuracy [%]", some titleTest, false, "upper left",
    some (pyJoin out_dir fnameTest), show_plot⟩]

/-- The keyword arguments of one `bulk` call issued by `vary_params`
(e.g. lines 213-216): `plot=False, nepochs=nepochs, niters=niters,
hidden_layers=shape, verbose=False`. -/
structure VaryBulkCall where
  hidden_layers : List Int
  nepochs : Nat
  niters : Nat
  plot : Bool
  verbose : Bool
deriving DecidableEq

/-- What one call of `vary_params` does on its non-exceptional paths: the
failure reports of the makedirs block and the printed progress lines, the
`bulk` calls issued, the three sections' result matrices, and the six
`plot_epoch` calls issued. -/
structure VaryTrace where
  printed : List PrintEvent
  bulkCalls : List VaryBulkCall
  sections : List SectionData
  plots : List EpochPlotCall
deriving DecidableEq

/-- `vary_params` (lines 176-294), with the external collaborators made
explicit: `mkdirRes` is the outcome of `os.makedirs(out_dir)` and
`bulkRes` maps each `hidden_layers` shape to the outcome of its `bulk`
call.  The makedirs outcome is swallowed by the `except OSError: pass`
handler; a `bulk` failure propagates unhandled. -/
def vary_params_model (out_dir : String) (nepochs niters : Nat)
    (show_plot : Bool) (mkdirRes : Except String Unit)
    (bulkRes : List Int → Except String ((List ℚ × List ℚ) × (List ℚ × List ℚ))) :
    Except String VaryTrace :=
  let reported := makedirs_step mkdirRes
  match collectBulks bulkRes vp_shapes1 with
  | Except.error e => Except.error e
  | Except.ok vs1 =>
    match collectBulks bulkRes vp_shapes2 with
    | Except.error e => Except.error e
    | Except.ok vs2 =>
      match collectBulks bulkRes vp_shapes3 with
      | Except.error e => Except.error e
      | Except.ok vs3 =>
        let sd1 := sectionData vs1 nepochs
        let sd2 := sectionData vs2 nepochs
        let sd3 := sectionData vs3 nepochs
        Except.ok
          ⟨reported ++ sectionPrints "Varying one layer" vp_shapes1.length
             ++ sectionPrints "\nVarying two layers" vp_shapes2.length
             ++ sectionPrints "\nVarying three layers" vp_shapes3.length,
           (vp_shapes1 ++ vp_shapes2 ++ vp_shapes3).map
             (fun s => ⟨s, nepochs, niters, false, false⟩),
           [sd1, sd2, sd3],
           sectionPlots out_dir show_plot vp_shapes1 sd1
             "MLP - Training\n10 Iterations, Single Hidden Layer"
             "MLP - Testing\n10 Iterations, Single Hidden Layer"
             "single-train.png" "single-test.png"
           ++ sectionPlots out_dir show_plot vp_shapes2 sd2
             "MLP - Training\n10 Iterations, Double Hidden Layer"
             "MLP - Testing\n10 Iterations, Double Hidden Layer"
             "double-train.png" "double-test.png"
           ++ sectionPlots out_dir show_plot vp_shapes3 sd3
             "MLP - Training\n10 Iterations, Triple Hidden Layer"
             "MLP - Testing\n10 Iterations, Triple Hidden Layer"
             "triple-train.png" "triple-test.png"⟩

/-! ## Helper lemmas -/

theorem npArange1_length (n : Nat) : (npArange1 n).length = n := by
  simp [npArange1]

theorem splitChar_ne_nil (sep : Char) (p : List Char) : splitChar sep p ≠ [] := by
  induction p with
  | nil => simp [splitChar]
  | cons c rest ih =>
    cases h : splitChar sep rest with
    | nil => exact absurd h ih
    | cons hd tl =>
      simp only [splitChar, h]
      split <;> simp

theorem takeWhile_of_all_true {A : Type} (q : A → Bool) :
    ∀ l : List A, (∀ a ∈ l, q a = true) → l.takeWhile q = l := by
  intro l
  induction l with
  | nil => intro _; rfl
  | cons a t ih =>
    intro h
    rw [List.takeWhile_cons, h a (List.mem_cons_self a t),
      ih (fun b hb => h b (List.mem_cons_of_mem _ hb))]
    simp

theorem takeWhile_append_last_false {A : Type} (q : A → Bool) (c : A)
    (hc : q c = false) : ∀ l : List A, (l ++ [c]).takeWhile q = l.takeWhile q := by
  intro l
  induction l with
  | nil => simp [List.takeWhile_cons, hc]
  | cons a t ih =>
    rw [List.cons_append, List.takeWhile_cons, List.takeWhile_cons, ih]

theorem takeWhile_append_of_stop {A : Type} (q : A → Bool) (c : A) :
    ∀ l : List A, (∃ a ∈ l, q a = false) →
      (l ++ [c]).takeWhile q = l.takeWhile q := by
  intro l
  induction l with
  | nil => rintro ⟨a, ha, _⟩; exact absurd ha (List.not_mem_nil a)
  | cons a t ih =>
    rintro ⟨b, hb, hqb⟩
    rw [List.cons_append, List.takeWhile_cons, List.takeWhile_cons]
    cases hqa : q a with
    | false => rfl
    | true =>
      have hbt : b ∈ t := by
        rcases List.mem_cons.1 hb with h | h
        · subst h; rw [hqa] at hqb; exact absurd hqb (by simp)
        · exact h
      rw [ih ⟨b, hbt, hqb⟩]

theorem splitChar_of_not_mem (sep : Char) :
    ∀ p : List Char, sep ∉ p → splitChar sep p = [p] := by
  intro p
  induction p with
  | nil => intro _; rfl
  | cons c rest ih =>
    intro h
    have hc : c ≠ sep := fun hh => h (hh ▸ List.mem_cons_self c rest)
    have hr : sep ∉ rest := fun hh => h (List.mem_cons_of_mem _ hh)
    simp only [splitChar, ih hr]
    rw [if_neg hc]

theorem splitChar_of_mem (sep : Char) :
    ∀ p : List Char, sep ∈ p → ∃ h t, splitChar sep p = h :: t ∧ t ≠ [] := by
  intro p
  induction p with
  | nil => intro h; exact absurd h (List.not_mem_nil sep)
  | cons c rest ih =>
    intro hmem
    by_cases hc : c = sep
    · cases h : splitChar sep rest with
      | nil => exact absurd h (splitChar_ne_nil sep rest)
      | cons hd tl =>
        refine ⟨[], hd :: tl, ?_, by simp⟩
        simp only [splitChar, h]
        rw [if_pos hc]
    · have hr : sep ∈ rest := by
        rcases List.mem_cons.1 hmem with h | h
        · exact absurd h.symm hc
        · exact h
      obtain ⟨hd, tl, heq, hne⟩ := ih hr
      refine ⟨c :: hd, tl, ?_, hne⟩
      simp only [splitChar, heq]
      rw [if_neg hc]

theorem getLastD_of_ne_nil {A : Type} (l : List A) (hne : l ≠ []) (a b : A) :
    l.getLastD a = l.getLastD b := by
  cases l with
  | nil => exact absurd rfl hne
  | cons x t => rw [List.getLastD_cons, List.getLastD_cons]

theorem splitChar_getLastD (sep : Char) :
    ∀ p : List Char, (splitChar sep p).getLastD [] =
      (p.reverse.takeWhile (fun c => c ≠ sep)).reverse := by
  intro p
  induction p with
  | nil => rfl
  | cons c rest ih =>
    rw [List.reverse_cons]
    by_cases hc : c = sep
    · cases h : splitChar sep rest with
      | nil => exact absurd h (splitChar_ne_nil sep rest)
      | cons hd tl =>
        have hsplit : splitChar sep (c :: rest) = [] :: hd :: tl := by
          simp only [splitChar, h]
          rw [if_pos hc]
        rw [hsplit, List.getLastD_cons,
          takeWhile_append_last_false _ c (by simp [hc])]
        rw [h] at ih
        exact ih
    · by_cases hmem : sep ∈ rest
      · obtain ⟨hd, tl, heq, hne⟩ := splitChar_of_mem sep rest hmem
        have hsplit : splitChar sep (c :: rest) = (c :: hd) :: tl := by
          simp only [splitChar, heq]
          rw [if_neg hc]
        rw [hsplit, List.getLastD_cons,
          takeWhile_append_of_stop _ c rest.reverse
            ⟨sep, List.mem_reverse.2 hmem, by simp⟩]
        rw [heq, List.getLastD_cons] at ih
        rw [← ih]
        exact getLastD_of_ne_nil tl hne _ _
      · have hsplit : splitChar sep (c :: rest) = [c :: rest] := by
          simp only [splitChar, splitChar_of_not_mem sep rest hmem]
          rw [if_neg hc]
        rw [hsplit]
        have hall : ∀ a ∈ rest.reverse ++ [c],
            (fun x => decide (x ≠ sep)) a = true := by
          intro a ha
          rcases List.mem_append.1 ha with h | h
          · have haa : a ∈ rest := List.mem_reverse.1 h
            simp only [decide_eq_true_eq]
            exact fun hh => hmem (hh ▸ haa)
          · have haa : a = c := by simpa using h
            subst haa
            simpa using hc
        rw [takeWhile_of_all_true _ _ hall]
        simp

theorem pyExtOf_eq_extAfterLastDot (p : String) :
    pyExtOf p = extAfterLastDot p :=
  congrArg String.mk (splitChar_getLastD (Char.ofNat 46) p.toList)

theorem drawScatters_uniform {A : Type} (n L : Nat) :
    ∀ (ys : List (List A)) (idx : Nat), (∀ s ∈ ys, s.length = L) →
    drawScatters n idx L ys =
      Except.ok ((List.range ys.length).map (fun j =>
        ⟨npArange1 L, ys.getD j [], none, (idx + j) % n,
         (idx + j) % markersL.length⟩)) := by
  intro ys
  induction ys with
  | nil => intro idx h; rfl
  | cons y rest ih =>
    intro idx h
    have hy : y.length = L := h y (List.mem_cons_self y rest)
    have hrest : ∀ s ∈ rest, s.length = L := fun s hs =>
      h s (List.mem_cons_of_mem _ hs)
    have hrec := ih (idx + 1) hrest
    simp only [drawScatters, npArange1_length, hy, hrec]
    rw [List.length_cons, List.range_succ_eq_map]
    simp only [if_true, List.map_cons, List.map_map, List.getD_cons_zero,
      Nat.add_zero]
    refine congrArg Except.ok (congrArg₂ List.cons rfl ?_)
    apply List.map_congr_left
    intro j hj
    simp only [Function.comp_apply, List.getD_cons_succ]
    have hadd : idx + 1 + j = idx + (j + 1) := by omega
    rw [hadd]

theorem drawErrorbars_uniform {A : Type} (n L : Nat) :
    ∀ (ps : List (List A × List A)) (idx : Nat),
      (∀ p ∈ ps, p.1.length = L ∧ p.2.length = L) →
    drawErrorbars n idx L ps =
      Except.ok ((List.range ps.length).map (fun j =>
        ⟨npArange1 L, (ps.getD j ([], [])).1, some (ps.getD j ([], [])).2,
         (idx + j) % n, (idx + j) % markersL.length⟩)) := by
  intro ps
  induction ps with
  | nil => intro idx h; rfl
  | cons p rest ih =>
    intro idx h
    obtain ⟨hy, he⟩ := h p (List.mem_cons_self p rest)
    have hrest : ∀ q ∈ rest, q.1.length = L ∧ q.2.length = L := fun q hq =>
      h q (List.mem_cons_of_mem _ hq)
    have hrec := ih (idx + 1) hrest
    obtain ⟨y, err⟩ := p
    simp only at hy he
    simp only [drawErrorbars, npArange1_length, hy, he, and_self, hrec]
    rw [List.length_cons, List.range_succ_eq_map]
    simp only [if_true, List.map_cons, List.map_map, List.getD_cons_zero,
      Nat.add_zero]
    refine congrArg Except.ok (congrArg₂ List.cons rfl ?_)
    apply List.map_congr_left
    intro j hj
    simp only [Function.comp_apply, List.getD_cons_succ]
    have hadd : idx + 1 + j = idx + (j + 1) := by omega
    rw [hadd]

theorem foldl_set_range (f : Nat → List ℚ) :
    ∀ (k : Nat) (init : List (List ℚ)), k ≤ init.length →
      (List.range k).foldl (fun m i => m.set i (f i)) init =
        ((List.range k).map f) ++ init.drop k := by
  intro k
  induction k with
  | zero => intro init _; simp
  | succ k ih =>
    intro init hk
    rw [List.range_succ, List.foldl_append]
    rw [ih init (Nat.le_of_succ_le hk)]
    simp only [List.foldl_cons, List.foldl_nil]
    have hklt : k < init.length := hk
    rw [List.set_append]
    have hlen : (List.map f (List.range k)).length = k := by simp
    rw [hlen]
    rw [if_neg (lt_irrefl k)]
    rw [Nat.sub_self]
    rw [List.drop_eq_getElem_cons hklt]
    rw [List.set_cons_zero]
    rw [List.map_append]
    simp

theorem fillRows_eq_map (f : Nat → List ℚ) (n c : Nat) :
    fillRows f n c = (List.range n).map f := by
  rw [fillRows, foldl_set_range f n (npZerosQ n c) (by simp [npZerosQ])]
  have hd : (npZerosQ n c).drop n = [] := by simp [npZerosQ]
  rw [hd, List.append_nil]

theorem rangeMapGetD {A B : Type} (g : A → B) (d : A) :
    ∀ l : List A,
      (List.range l.length).map (fun i => g (l.getD i d)) = l.map g := by
  intro l
  induction l with
  | nil => rfl
  | cons a t ih =>
    rw [List.length_cons, List.range_succ_eq_map, List.map_cons, List.map_map]
    rw [List.getD_cons_zero, List.map_cons]
    refine congrArg₂ List.cons rfl ?_
    rw [← ih]
    apply List.map_congr_left
    intro j hj
    simp [Function.comp_apply, List.getD_cons_succ]

theorem getD_map_range {B : Type} (g : Nat → B) (d : B) (n e : Nat)
    (he : e < n) : ((List.range n).map g).getD e d = g e := by
  have hlt : e < ((List.range n).map g).length := by simp [he]
  rw [List.getD_eq_getElem _ _ hlt, List.getElem_map, List.getElem_range]

theorem sectionData_eq (vs : List ((List ℚ × List ℚ) × (List ℚ × List ℚ)))
    (nepochs : Nat) :
    sectionData vs nepochs =
      ⟨vs.map (fun v => v.1.1), vs.map (fun v => v.1.2),
       vs.map (fun v => v.2.1), vs.map (fun v => v.2.2)⟩ := by
  rw [sectionData]
  rw [fillRows_eq_map, fillRows_eq_map, fillRows_eq_map, fillRows_eq_map]
  congr 1
  · exact rangeMapGetD (fun v => v.1.1) (([], []), ([], [])) vs
  · exact rangeMapGetD (fun v => v.1.2) (([], []), ([], [])) vs
  · exact rangeMapGetD (fun v => v.2.1) (([], []), ([], [])) vs
  · exact rangeMapGetD (fun v => v.2.2) (([], []), ([], [])) vs

theorem collectBulks_ok
    (g : List Int → (List ℚ × List ℚ) × (List ℚ × List ℚ)) :
    ∀ l : List (List Int),
      collectBulks (fun s => Except.ok (g s)) l = Except.ok (l.map g) := by
  intro l
  induction l with
  | nil => rfl
  | cons s rest ih => simp [collectBulks, ih]

theorem vp_shapes1_eval : vp_shapes1 =
    [[25], [50], [75], [100], [125], [150], [175], [200], [225], [250]] := by
  norm_num [vp_shapes1, linspace, pyInt, List.range_succ]

theorem vp_shapes2_eval : vp_shapes2 =
    [[250, 10], [250, 20], [250, 30], [250, 40], [250, 50], [250, 60],
     [250, 70], [250, 80], [250, 90], [250, 100]] := by
  norm_num [vp_shapes2, linspace, pyInt, List.range_succ]

theorem vp_shapes3_eval : vp_shapes3 =
    [[250, 100, 5], [250, 100, 10], [250, 100, 15], [250, 100, 20],
     [250, 100, 25], [250, 100, 30], [250, 100, 35], [250, 100, 40],
     [250, 100, 45], [250, 100, 50]] := by
  norm_num [vp_shapes3, linspace, pyInt, List.range_succ]

/-! ## Claim C1 -/

/-- C1 fails on the code: with `y_series = ([0, 0], [0])` (two series, of
lengths 2 and 1) and no `y_errs`, the drawing loop raises on its very first
series.  The leaked `x` from the axis-limit comprehension is the *last*
series, of length 1, so `ax.scatter` receives a length-1 x array against the
length-2 first series. -/
theorem plot_epoch_draw_unequal_lengths_error :
    plot_epoch_draw [[(0 : Int), 0], [0]] none =
      Except.error "ValueError: x and y must be the same size" := by
  rfl

/-- C1 amended: for a non-empty `y_series` in which all series share one
length `L` (and, when `y_errs` is given, one error series of length `L` per
data series), the loop draws every series against the epoch numbers
`1..L = 1..len(series)` — as an errorbar series when `y_errs` is given,
otherwise as a scatter series — taking the next color (cycle of period
`len(y_series)`) and marker (cycle over the 31 markers) per series, and
completes without raising.  (Without the shared length the loop raises,
because each x array has the length of the *last* series, leaked from the
axis-limit comprehension.) -/
theorem plot_epoch_draw_uniform_lengths {A : Type} (ys errs : List (List A))
    (L : Nat) (hne : ys ≠ []) (hlen : ∀ s ∈ ys, s.length = L)
    (helen : errs.length = ys.length) (herr : ∀ s ∈ errs, s.length = L) :
    plot_epoch_draw ys none =
      Except.ok ((List.range ys.length).map (fun j =>
        ⟨npArange1 L, ys.getD j [], none, j % ys.length,
         j % markersL.length⟩)) ∧
    plot_epoch_draw ys (some errs) =
      Except.ok ((List.range ys.length).map (fun j =>
        ⟨npArange1 L, ys.getD j [], some (errs.getD j []), j % ys.length,
         j % markersL.length⟩)) := by
  have hlast : ys.getLast? = some (ys.getLast hne) :=
    List.getLast?_eq_getLast ys hne
  have hlastlen : (ys.getLast hne).length = L := hlen _ (List.getLast_mem hne)
  have hziplen : (ys.zip errs).length = ys.length := by
    rw [List.length_zip, helen, Nat.min_self]
  constructor
  · rw [plot_epoch_draw, hlast]
    simp only [hlastlen]
    rw [drawScatters_uniform ys.length L ys 0 hlen]
    simp
  · rw [plot_epoch_draw, hlast]
    simp only [hlastlen]
    rw [drawErrorbars_uniform ys.length L (ys.zip errs) 0 (by
      intro q hq
      obtain ⟨h1, h2⟩ := List.of_mem_zip hq
      exact ⟨hlen _ h1, herr _ h2⟩)]
    rw [hziplen]
    refine congrArg Except.ok (List.map_congr_left ?_)
    intro j hj
    have hj1 : j < ys.length := List.mem_range.1 hj
    have hj2 : j < errs.length := by rw [helen]; exact hj1
    have hjz : j < (ys.zip errs).length := by rw [hziplen]; exact hj1
    rw [List.getD_eq_getElem _ _ hjz, List.getElem_zip,
      List.getD_eq_getElem _ _ hj1, List.getD_eq_getElem _ _ hj2]
    simp

/-- Witness for the amended C1 at a concrete input: two series of length 2
with matching error series are both drawn against epochs `[1, 2]`, with
colors and markers 0 and 1, and the loop completes. -/
theorem plot_epoch_draw_uniform_lengths_witness :
    (([[(1 : Int), 2], [3, 4]] : List (List Int)) ≠ []) ∧
    (∀ s ∈ ([[(1 : Int), 2], [3, 4]] : List (List Int)), s.length = 2) ∧
    plot_epoch_draw [[(1 : Int), 2], [3, 4]] (some [[0, 0], [5, 5]]) =
      Except.ok [⟨[1, 2], [1, 2], some [0, 0], 0, 0⟩,
                 ⟨[1, 2], [3, 4], some [5, 5], 1, 1⟩] := by
  refine ⟨by decide, by decide, ?_⟩
  have h := (plot_epoch_draw_uniform_lengths [[(1 : Int), 2], [3, 4]]
    [[0, 0], [5, 5]] 2 (by decide) (by decide) (by decide) (by decide)).2
  rw [h]
  rfl

/-! ## Claim C2 -/

/-- C2: `basic_sim` composes the pipeline load → normalize → one-hot →
network: `main` is invoked exactly with `train_data/255.`,
`one_hot(train_labels, 10)`, `test_data/255.`, `one_hot(test_labels, 10)`
and the given `nepochs`, every other keyword of `main` staying at its
default (so the network is constructed and its `run` routine and the plot
step follow inside `main`). -/
theorem basic_sim_invokes_main_exactly (nepochs : Nat) :
    basic_sim nepochs =
      ⟨Arr.div255 Arr.trainImages, Arr.oneHot Arr.trainLabels 10,
       Arr.div255 Arr.testImages, Arr.oneHot Arr.testLabels 10,
       nepochs, true, true, [100], 1, 1 / 1000, -1, 1, "sigmoid"⟩ := rfl

/-! ## Claim C3 -/

/-- C3: `main` forwards its keyword hyperparameters unchanged:
`MultilayerPerception` is constructed with
`shape = [train_data.shape[1]] + list(hidden_layers) + [10]` and exactly
the given `bias`, `learning_rate`, `min_weight`, `max_weight` and
`hidden_activation_type`, and `run` is called with `nepochs` (and the given
`verbose`). -/
theorem main_forwards_hyperparameters (ncols nepochs : Nat)
    (plot verbose : Bool) (hidden_layers : List Int)
    (bias learning_rate min_weight max_weight : ℚ) (act : String)
    (r : List ℚ × List ℚ) :
    (main_trace ncols nepochs plot verbose hidden_layers bias learning_rate
        min_weight max_weight act r).ctor =
      ⟨[(ncols : Int)] ++ hidden_layers ++ [10], bias, learning_rate,
       min_weight, max_weight, act⟩ ∧
    (main_trace ncols nepochs plot verbose hidden_layers bias learning_rate
        min_weight max_weight act r).run = ⟨nepochs, verbose⟩ :=
  ⟨rfl, rfl⟩

/-! ## Claim C6 -/

/-- C6: in each of `plot_epoch`, `plot_weights` and `plot_surface`, the
figure is saved if and only if `out_path` is not `None`; when it is saved,
it is written at exactly the caller-specified `out_path`, with the format
`out_path.split('.')[-1]`, which is the substring of `out_path` after its
last `'.'` (the whole path when it contains no dot). -/
theorem plotters_save_iff_out_path (op : Option String) (p : String) :
    ((plot_epoch_saveStep op).isSome ↔ op.isSome) ∧
    ((plot_weights_saveStep op).isSome ↔ op.isSome) ∧
    ((plot_surface_saveStep op).isSome ↔ op.isSome) ∧
    plot_epoch_saveStep (some p) = some (p, extAfterLastDot p) ∧
    plot_weights_saveStep (some p) = some (p, extAfterLastDot p) ∧
    plot_surface_saveStep (some p) = some (p, extAfterLastDot p) := by
  refine ⟨?_, ?_, ?_, ?_, ?_, ?_⟩
  · cases op <;> simp [plot_epoch_saveStep]
  · cases op <;> simp [plot_weights_saveStep]
  · cases op <;> simp [plot_surface_saveStep]
  · rw [plot_epoch_saveStep, pyExtOf_eq_extAfterLastDot]
  · rw [plot_weights_saveStep, pyExtOf_eq_extAfterLastDot]
  · rw [plot_surface_saveStep, pyExtOf_eq_extAfterLastDot]

/-! ## Claim C7 -/

/-- C7: after `net.run` returns `(train_results, test_results)`, `main`
plots `train_results * 100` and `test_results * 100` with series names
`('Train', 'Test')` when `plot=True`, and returns the tuple
`(train_results * 100, test_results * 100)` in that order. -/
theorem main_plots_and_returns_scaled_results (ncols nepochs : Nat)
    (verbose : Bool) (hidden_layers : List Int) (b lr mn mx : ℚ)
    (act : String) (r : List ℚ × List ℚ) (plot : Bool) :
    (main_trace ncols nepochs true verbose hidden_layers b lr mn mx act
        r).plotted =
      some ⟨[r.1.map (fun q => q * 100), r.2.map (fun q => q * 100)],
            some ["Train", "Test"], none, some "Accuracy [%]",
            some "MLP - Example", false, "upper left", none, true⟩ ∧
    (main_trace ncols nepochs plot verbose hidden_layers b lr mn mx act
        r).ret =
      (r.1.map (fun q => q * 100), r.2.map (fun q => q * 100)) :=
  ⟨rfl, rfl⟩

/-! ## Claim C4 -/

/-- C4: a failure of `os.makedirs` in `vary_params` is silently ignored:
the handler reports nothing, and the rest of the run (prints, bulk
simulations, sections and plot saving) is exactly what it would have been
had `makedirs` succeeded. -/
theorem vary_params_ignores_makedirs_failure (out_dir : String)
    (nepochs niters : Nat) (show_plot : Bool) (e : String)
    (bulkRes : List Int → Except String ((List ℚ × List ℚ) × (List ℚ × List ℚ))) :
    makedirs_step (Except.error e) = [] ∧
    vary_params_model out_dir nepochs niters show_plot (Except.error e) bulkRes =
      vary_params_model out_dir nepochs niters show_plot (Except.ok ()) bulkRes :=
  ⟨rfl, rfl⟩

/-! ## Claim C8 -/

/-- C8: when `os.makedirs` and all thirty `bulk` calls succeed, the six
`plot_epoch` calls of `vary_params` save to `single/double/triple`
`-train.png`/`-test.png` under `out_dir`, and each of the three *testing*
plots passes `y_errs = train_stds` — the per-shape *training* standard
deviations (the second component of bulk's first returned pair) — even
though `vary_params` also computes the testing standard deviations, which
sit unused in its `test_stds` matrices (the second component of bulk's
second returned pair). -/
theorem vary_params_testing_plots_use_train_stds (out_dir : String)
    (nepochs niters : Nat) (show_plot : Bool)
    (bulkOk : List Int → (List ℚ × List ℚ) × (List ℚ × List ℚ)) :
    (vary_params_model out_dir nepochs niters show_plot (Except.ok ())
        (fun s => Except.ok (bulkOk s))).map
      (fun t => (t.plots.map (fun pc => (pc.out_path, pc.y_errs)),
                 t.sections.map (fun sd => sd.test_stds))) =
      Except.ok
        ([(some (pyJoin out_dir "single-train.png"),
           some (vp_shapes1.map (fun s => (bulkOk s).1.2))),
          (some (pyJoin out_dir "single-test.png"),
           some (vp_shapes1.map (fun s => (bulkOk s).1.2))),
          (some (pyJoin out_dir "double-train.png"),
           some (vp_shapes2.map (fun s => (bulkOk s).1.2))),
          (some (pyJoin out_dir "double-test.png"),
           some (vp_shapes2.map (fun s => (bulkOk s).1.2))),
          (some (pyJoin out_dir "triple-train.png"),
           some (vp_shapes3.map (fun s => (bulkOk s).1.2))),
          (some (pyJoin out_dir "triple-test.png"),
           some (vp_shapes3.map (fun s => (bulkOk s).1.2)))],
         [vp_shapes1.map (fun s => (bulkOk s).2.2),
          vp_shapes2.map (fun s => (bulkOk s).2.2),
          vp_shapes3.map (fun s => (bulkOk s).2.2)]) := by
  simp [vary_params_model, collectBulks_ok, sectionData_eq, sectionPlots,
    Except.map]

/-! ## Claim C9 -/

/-- C9 fails on the code: on the complete 2×2 grid
`[(0,0,10), (0,1,20), (1,0,30), (1,1,40)]`, `make_grid` does return the
meshgrid of the sorted distinct x and y values, but `zi[0][1]` is `20`
(the z value at `x = 0, y = 1`) while the input triple with
`x = xim[0][1] = 1` and `y = yim[0][1] = 0` has z value `30`: the z column
is sorted x-major yet reshaped into the y-major meshgrid shape, so `zi` is
misaligned with `(xim, yim)` (transposed, for square grids). -/
theorem make_grid_misaligns_z :
    make_grid [(0, 0, 10), (0, 1, 20), (1, 0, 30), (1, 1, 40)] =
      ([[0, 1], [0, 1]], [[0, 0], [1, 1]], [[10, 20], [30, 40]]) ∧
    ((make_grid [(0, 0, 10), (0, 1, 20), (1, 0, 30), (1, 1, 40)]).2.2.getD 0
        []).getD 1 0 = 20 ∧
    gridZAt [(0, 0, 10), (0, 1, 20), (1, 0, 30), (1, 1, 40)]
      (((make_grid [(0, 0, 10), (0, 1, 20), (1, 0, 30), (1, 1, 40)]).1.getD 0
          []).getD 1 0)
      (((make_grid [(0, 0, 10), (0, 1, 20), (1, 0, 30), (1, 1, 40)]).2.1.getD 0
          []).getD 1 0) = some 30 ∧
    (20 : Int) ≠ 30 := by
  refine ⟨by decide, by decide, by decide, by decide⟩

/-! ## Claim C10 -/

/-- C10: for `niters >= 1` runs whose per-run result arrays have length
`nepochs`, `bulk` returns `((train_mean, train_std), (test_mean,
test_std))`, four length-`nepochs` arrays where entry `e` of each mean is
the arithmetic mean over the `niters` runs of the per-run value at epoch
`e`, entry `e` of each std is the (population) standard deviation of those
values — the square root of the mean squared deviation from their mean —
and every `main` run is invoked with `plot=False`, `verbose=False` and the
given `nepochs`. -/
theorem npMeanAxis0_getD (m : List (List ℚ)) (ncols e : Nat) (he : e < ncols) :
    (npMeanAxis0 m ncols).getD e 0 =
      (m.map (fun row => row.getD e 0)).sum / m.length := by
  rw [npMeanAxis0, getD_map_range _ _ ncols e he]

theorem npStdAxis0_getD (m : List (List ℚ)) (ncols e : Nat) (he : e < ncols) :
    (npStdAxis0 m ncols).getD e 0 =
      Real.sqrt (((m.map (fun row =>
        (row.getD e 0 - (m.map (fun r2 => r2.getD e 0)).sum / m.length) ^
          2)).sum / m.length : ℚ)) := by
  rw [npStdAxis0, npVarAxis0, List.map_map, getD_map_range _ _ ncols e he]
  rfl

theorem bulk_stats_means_and_stds (runs : Nat → List ℚ × List ℚ)
    (niters nepochs : Nat) (hn : 1 ≤ niters)
    (hlen : ∀ i, i < niters →
      (runs i).1.length = nepochs ∧ (runs i).2.length = nepochs) :
    ((bulk_result runs niters nepochs).1.1.length = nepochs ∧
     (bulk_result runs niters nepochs).1.2.length = nepochs ∧
     (bulk_result runs niters nepochs).2.1.length = nepochs ∧
     (bulk_result runs niters nepochs).2.2.length = nepochs) ∧
    (∀ e, e < nepochs →
      (bulk_result runs niters nepochs).1.1.getD e 0 =
        ((List.range niters).map (fun i => (runs i).1.getD e 0)).sum / niters ∧
      (bulk_result runs niters nepochs).2.1.getD e 0 =
        ((List.range niters).map (fun i => (runs i).2.getD e 0)).sum / niters ∧
      (bulk_result runs niters nepochs).1.2.getD e 0 =
        Real.sqrt ((((List.range niters).map (fun i =>
          ((runs i).1.getD e 0 -
            ((List.range niters).map (fun i2 => (runs i2).1.getD e 0)).sum /
              niters) ^ 2)).sum / niters : ℚ)) ∧
      (bulk_result runs niters nepochs).2.2.getD e 0 =
        Real.sqrt ((((List.range niters).map (fun i =>
          ((runs i).2.getD e 0 -
            ((List.range niters).map (fun i2 => (runs i2).2.getD e 0)).sum /
              niters) ^ 2)).sum / niters : ℚ))) ∧
    bulk_mainCalls niters nepochs =
      List.replicate niters ⟨false, false, nepochs⟩ := by
  refine ⟨⟨?_, ?_, ?_, ?_⟩, ?_, ?_⟩
  · simp only [bulk_result, npMeanAxis0, List.length_map, List.length_range]
  · simp only [bulk_result, npStdAxis0, npVarAxis0, List.length_map,
      List.length_range]
  · simp only [bulk_result, npMeanAxis0, List.length_map, List.length_range]
  · simp only [bulk_result, npStdAxis0, npVarAxis0, List.length_map,
      List.length_range]
  · intro e he
    refine ⟨?_, ?_, ?_, ?_⟩
    · simp only [bulk_result]
      rw [npMeanAxis0_getD _ _ _ he, fillRows_eq_map]
      simp only [List.map_map, List.length_map, List.length_range]
      rfl
    · simp only [bulk_result]
      rw [npMeanAxis0_getD _ _ _ he, fillRows_eq_map]
      simp only [List.map_map, List.length_map, List.length_range]
      rfl
    · simp only [bulk_result]
      rw [npStdAxis0_getD _ _ _ he, fillRows_eq_map]
      simp only [List.map_map, List.length_map, List.length_range]
      rfl
    · simp only [bulk_result]
      rw [npStdAxis0_getD _ _ _ he, fillRows_eq_map]
      simp only [List.map_map, List.length_map, List.length_range]
      rfl
  · simp [bulk_mainCalls, List.map_const']

/-- Witness for C10 at a concrete input: two identical runs `([5], [7])`
over one epoch give train mean `5` and train standard deviation `0`. -/
theorem bulk_stats_means_and_stds_witness :
    (1 ≤ 2) ∧
    (bulk_result (fun _ => ([(5 : ℚ)], [7])) 2 1).1.1.getD 0 0 = 5 ∧
    (bulk_result (fun _ => ([(5 : ℚ)], [7])) 2 1).1.2.getD 0 0 = 0 := by
  have h := bulk_stats_means_and_stds (fun _ => ([(5 : ℚ)], [7])) 2 1
    (by decide) (by intro i hi; exact ⟨rfl, rfl⟩)
  have h0 := h.2.1 0 (by decide)
  refine ⟨by decide, ?_, ?_⟩
  · rw [h0.1]
    norm_num [List.range_succ]
  · rw [h0.2.2.1]
    norm_num [List.range_succ, Real.sqrt_zero]

/-! ## Claim C5 -/

/-- C5: apart from the makedirs `try/except` in `vary_params`, no function
in the two files handles any failure: an error from the network's `run`
propagates out of `main` unchanged, an error raised inside `plot_epoch`'s
drawing loop propagates out of a plotting `main` unchanged, an error from
any `main` run propagates out of `bulk` unchanged, and an error from a
`bulk` call propagates out of `vary_params` unchanged (whatever the
makedirs outcome was). -/
theorem no_failure_recovery_outside_makedirs :
    (∀ (ncols nepochs : Nat) (plot verbose : Bool) (hl : List Int)
       (b lr mn mx : ℚ) (act e : String),
       main_except ncols nepochs plot verbose hl b lr mn mx act
         (Except.error e) = Except.error e) ∧
    (∀ (ncols nepochs : Nat) (verbose : Bool) (hl : List Int)
       (b lr mn mx : ℚ) (act e : String) (r : List ℚ × List ℚ),
       plot_epoch_draw [r.1.map (fun q => q * 100),
         r.2.map (fun q => q * 100)] none = Except.error e →
       main_except ncols nepochs true verbose hl b lr mn mx act
         (Except.ok r) = Except.error e) ∧
    (∀ (runs : Nat → Except String (List ℚ × List ℚ)) (niters nepochs : Nat)
       (e : String), 0 < niters → runs 0 = Except.error e →
       bulk_except runs niters nepochs = Except.error e) ∧
    (∀ (out_dir : String) (nepochs niters : Nat) (show_plot : Bool)
       (mkdirRes : Except String Unit)
       (bulkRes : List Int →
         Except String ((List ℚ × List ℚ) × (List ℚ × List ℚ)))
       (e : String), bulkRes [25] = Except.error e →
       vary_params_model out_dir nepochs niters show_plot mkdirRes bulkRes =
         Except.error e) := by
  refine ⟨?_, ?_, ?_, ?_⟩
  · intro ncols nepochs plot verbose hl b lr mn mx act e
    rfl
  · intro ncols nepochs verbose hl b lr mn mx act e r hdraw
    simp only [main_except, if_true]
    rw [hdraw]
  · intro runs niters nepochs e hpos h0
    cases niters with
    | zero => exact absurd hpos (by omega)
    | succ k =>
      rw [bulk_except, List.range_succ_eq_map]
      simp only [collectRuns, h0]
  · intro out_dir nepochs niters show_plot mkdirRes bulkRes e hb
    rw [vary_params_model, vp_shapes1_eval]
    simp only [collectBulks, hb]

/-- Witness for C5 at concrete inputs: a failing `run` propagates out of
`main` and a failing first `main` run propagates out of `bulk`. -/
theorem no_failure_recovery_outside_makedirs_witness :
    main_except 784 1 true true [100] 1 (1 / 1000) (-1) 1 "sigmoid"
      (Except.error "MemoryError") = Except.error "MemoryError" ∧
    bulk_except (fun _ => Except.error "MemoryError") 2 3 =
      Except.error "MemoryError" := by
  constructor
  · exact no_failure_recovery_outside_makedirs.1 784 1 true true [100] 1
      (1 / 1000) (-1) 1 "sigmoid" "MemoryError"
  · exact no_failure_recovery_outside_makedirs.2.2.1
      (fun _ => Except.error "MemoryError") 2 3 "MemoryError" (by decide) rfl
